import Mathlib

/-!
Verification of the NutriConnect order/payment services.

Shallow embedding of the in-memory order service
(order-service/models/Order.js, order-service/services/OrderService.js,
order-service/services/MealService.js, order-service/services/StudentService.js,
order-service/middleware/validation.js) and of the mock PayDPI client
(payment-service/clients/PayDPIClient.js).

Modelling conventions:
- JavaScript numbers that hold money or quantities are modelled as Int
  (every value in the mock data is integral).
- Dates/timestamps are modelled as Int (milliseconds / abstract instants);
  the code compares parsed dates with < and stored date strings with ===,
  both of which become Int comparisons/equality here.
- The keyed objects (meals map, payments map) become lists searched by id;
  a keyed in-place mutation becomes an update of the matching entries.
- Timestamp bookkeeping fields (createdAt, updatedAt, orderDate, cancelledAt)
  and purely cosmetic metadata are omitted: no embedded operation branches
  on them.
- Exceptions carrying statusCode/code become Except with an SvcError value;
  a thrown error leaves the caller's state untouched, which the embedding
  renders by returning no state on the error path.
-/

namespace NutriConnect

deriving instance DecidableEq for Except

/-- Order lifecycle status, the enum used by order-service. -/
inductive OrderStatus
  | PENDING
  | CONFIRMED
  | PREPARING
  | READY
  | DELIVERED
  | CANCELLED
deriving DecidableEq

/-- Payment status stored on an order (order-service side). -/
inductive OrderPaymentStatus
  | PENDING
  | PROCESSING
  | PAID
  | FAILED
  | REFUNDED
deriving DecidableEq

/-- One appended statusHistory entry (Order.js updateStatus). -/
structure StatusHistoryEntry where
  status : OrderStatus
  staffId : String
  notes : String
deriving DecidableEq

/-- An order record as stored in the in-memory array (Order.js create).
Ids are modelled by the numeric counter used to build them. -/
structure Order where
  id : Nat
  studentId : String
  mealId : String
  schoolId : String
  scheduledDate : Int
  quantity : Int
  totalAmount : Int
  subsidyAmount : Int
  finalAmount : Int
  status : OrderStatus
  paymentStatus : OrderPaymentStatus
  paymentId : Option String
  statusHistory : List StatusHistoryEntry
  cancellationReason : Option String
deriving DecidableEq

/-- The orderData record assembled by OrderService.createOrder and passed
to OrderModel.create. -/
structure OrderData where
  studentId : String
  mealId : String
  schoolId : String
  scheduledDate : Int
  quantity : Int
  totalAmount : Int
  subsidyAmount : Int
  finalAmount : Int
deriving DecidableEq

/-- The in-memory order store: the orders array plus the id counter
(Order.js constructor: orders = [], counter = 1000). -/
structure OrderStore where
  orders : List Order
  counter : Nat
deriving DecidableEq

/-- A meal record from MealService's mock data (fields the logic reads). -/
structure Meal where
  id : String
  name : String
  price : Int
  subsidyAmount : Int
  available : Bool
  currentQuantity : Int
deriving DecidableEq

/-- The MealService in-memory meal map, as a list keyed by id. -/
structure MealStore where
  meals : List Meal
deriving DecidableEq

/-- A student record from StudentService's mock data (fields the logic reads). -/
structure Student where
  id : String
  school : String
  subsidyEligible : Bool
  dietaryRestrictions : List String
deriving DecidableEq

/-- Whole order-service state: order store, meal store and the static
student table. -/
structure SysState where
  orders : OrderStore
  meals : MealStore
  students : List Student
deriving DecidableEq

/-- A thrown service error: the ad hoc statusCode/code fields attached to
JavaScript Error objects. -/
structure SvcError where
  statusCode : Nat
  code : String
deriving DecidableEq

/-- The request body of POST /api/orders as consumed by createOrder
(after middleware validation). -/
structure CreateRequest where
  mealId : String
  scheduledDate : Int
  quantity : Int
deriving DecidableEq

/-- Replace the first list entry satisfying the predicate; models the
findIndex-then-assign pattern used throughout Order.js. -/
def updateFirst (p : Order → Bool) (f : Order → Order) : List Order → List Order
  | [] => []
  | o :: rest => if p o then f o :: rest else o :: updateFirst p f rest

/-- Order.js findById: first order with the given id, or null. -/
def OrderStore.findById (s : OrderStore) (oid : Nat) : Option Order :=
  s.orders.find? (fun o => decide (o.id = oid))

/-- Order.js findExistingOrder: first non-CANCELLED order of the student
on the given scheduledDate. -/
def OrderStore.findExistingOrder (s : OrderStore) (sid : String) (d : Int) : Option Order :=
  s.orders.find? (fun o =>
    decide (o.studentId = sid ∧ o.scheduledDate = d ∧ o.status ≠ OrderStatus.CANCELLED))

/-- The new order object built by Order.js create: spreads the order data,
sets status PENDING, paymentStatus PENDING iff finalAmount > 0 else PAID,
and paymentId null. The id is the current counter value. -/
def OrderData.toOrder (d : OrderData) (id : Nat) : Order :=
  { id := id
    studentId := d.studentId
    mealId := d.mealId
    schoolId := d.schoolId
    scheduledDate := d.scheduledDate
    quantity := d.quantity
    totalAmount := d.totalAmount
    subsidyAmount := d.subsidyAmount
    finalAmount := d.finalAmount
    status := OrderStatus.PENDING
    paymentStatus := if 0 < d.finalAmount then OrderPaymentStatus.PENDING else OrderPaymentStatus.PAID
    paymentId := none
    statusHistory := []
    cancellationReason := none }

/-- Order.js create: push the new order and bump the counter. -/
def OrderStore.create (s : OrderStore) (d : OrderData) : OrderStore × Order :=
  let newOrder := d.toOrder s.counter
  ({ orders := s.orders ++ [newOrder], counter := s.counter + 1 }, newOrder)

/-- The cancelled version of an order written back by Order.js cancel. -/
def Order.cancelled (reason : String) (o : Order) : Order :=
  { o with status := OrderStatus.CANCELLED, cancellationReason := some reason }

/-- Order.js cancel: findIndex by id; if absent return null, else overwrite
that entry with its cancelled version and return it. -/
def OrderStore.cancel (s : OrderStore) (oid : Nat) (reason : String) : OrderStore × Option Order :=
  match s.orders.find? (fun o => decide (o.id = oid)) with
  | none => (s, none)
  | some o =>
      ({ s with orders := updateFirst (fun x => decide (x.id = oid)) (Order.cancelled reason) s.orders },
       some (Order.cancelled reason o))

/-- The updated version of an order written back by Order.js updateStatus:
overwrite status and append one statusHistory entry. -/
def Order.withStatus (status : OrderStatus) (staffId notes : String) (o : Order) : Order :=
  { o with status := status
           statusHistory := o.statusHistory ++ [{ status := status, staffId := staffId, notes := notes }] }

/-- Order.js updateStatus: findIndex by id; if absent return null, else
overwrite that entry and return it. No check on the current status. -/
def OrderStore.updateStatus (s : OrderStore) (oid : Nat) (status : OrderStatus)
    (staffId notes : String) : OrderStore × Option Order :=
  match s.orders.find? (fun o => decide (o.id = oid)) with
  | none => (s, none)
  | some o =>
      ({ s with orders := updateFirst (fun x => decide (x.id = oid)) (Order.withStatus status staffId notes) s.orders },
       some (Order.withStatus status staffId notes o))

/-- The order with its paymentStatus overwritten (Order.js updatePaymentStatus). -/
def Order.withPaymentStatus (ps : OrderPaymentStatus) (o : Order) : Order :=
  { o with paymentStatus := ps }

/-- Order.js updatePaymentStatus: findIndex by id and overwrite paymentStatus. -/
def OrderStore.updatePaymentStatus (s : OrderStore) (oid : Nat) (ps : OrderPaymentStatus) :
    OrderStore × Option Order :=
  match s.orders.find? (fun o => decide (o.id = oid)) with
  | none => (s, none)
  | some o =>
      ({ s with orders := updateFirst (fun x => decide (x.id = oid)) (Order.withPaymentStatus ps) s.orders },
       some (Order.withPaymentStatus ps o))

/-- MealService.getMealById: map lookup by id. -/
def MealStore.getMealById (ms : MealStore) (mid : String) : Option Meal :=
  ms.meals.find? (fun m => decide (m.id = mid))

/-- MealService.updateAvailability: when the meal exists, subtract the
ordered quantity from currentQuantity (naive subtraction, no lower bound). -/
def MealStore.updateAvailability (ms : MealStore) (mid : String) (q : Int) : MealStore :=
  { meals := ms.meals.map (fun m =>
      if m.id = mid then { m with currentQuantity := m.currentQuantity - q } else m) }

/-- MealService.restoreAvailability: when the meal exists, add the cancelled
quantity back to currentQuantity. -/
def MealStore.restoreAvailability (ms : MealStore) (mid : String) (q : Int) : MealStore :=
  { meals := ms.meals.map (fun m =>
      if m.id = mid then { m with currentQuantity := m.currentQuantity + q } else m) }

/-- StudentService.getStudentById: static mock lookup. -/
def getStudentById (students : List Student) (sid : String) : Option Student :=
  students.find? (fun s => decide (s.id = sid))

/-- The pricing block of OrderService.createOrder plus the record it passes
to OrderModel.create: totalAmount = price*quantity, subsidyAmount =
subsidy*quantity when the student is eligible else 0, finalAmount =
max(0, totalAmount - subsidyAmount). -/
def computeOrderData (sid : String) (req : CreateRequest) (meal : Meal) (student : Student) : OrderData :=
  let totalAmount := meal.price * req.quantity
  let subsidyAmount := if student.subsidyEligible then meal.subsidyAmount * req.quantity else 0
  let finalAmount := max 0 (totalAmount - subsidyAmount)
  { studentId := sid
    mealId := req.mealId
    schoolId := student.school
    scheduledDate := req.scheduledDate
    quantity := req.quantity
    totalAmount := totalAmount
    subsidyAmount := subsidyAmount
    finalAmount := finalAmount }

/-- OrderService.createOrder. Checks run in source order: past date (400
invalid_date), meal missing/unavailable (404 meal_not_available), student
unknown (401 student_not_found), duplicate active order on the date (409
duplicate_order); then creates the order and decrements meal availability.
The PayDPI call is commented out in the source and the notification only
logs, so neither touches state. -/
def createOrder (st : SysState) (today : Int) (sid : String) (req : CreateRequest) :
    Except SvcError (SysState × Order) :=
  if req.scheduledDate < today then
    Except.error { statusCode := 400, code := "invalid_date" }
  else
    match st.meals.getMealById req.mealId with
    | none => Except.error { statusCode := 404, code := "meal_not_available" }
    | some meal =>
      if meal.available = false then
        Except.error { statusCode := 404, code := "meal_not_available" }
      else
        match getStudentById st.students sid with
        | none => Except.error { statusCode := 401, code := "student_not_found" }
        | some student =>
          match st.orders.findExistingOrder sid req.scheduledDate with
          | some _ => Except.error { statusCode := 409, code := "duplicate_order" }
          | none =>
            let p := st.orders.create (computeOrderData sid req meal student)
            Except.ok
              ({ st with orders := p.1,
                         meals := st.meals.updateAvailability req.mealId req.quantity },
               p.2)

/-- OrderService.cancelOrder. Order missing or owned by another student:
404 order_not_found. Status outside PENDING/CONFIRMED: 400 cannot_cancel.
Otherwise: mark cancelled, mark REFUNDED when the pre-cancel order was PAID
with finalAmount > 0, and restore meal availability. -/
def cancelOrder (st : SysState) (oid : Nat) (sid reason : String) :
    Except SvcError (SysState × Order) :=
  match st.orders.findById oid with
  | none => Except.error { statusCode := 404, code := "order_not_found" }
  | some order =>
    if order.studentId ≠ sid then
      Except.error { statusCode := 404, code := "order_not_found" }
    else if order.status ≠ OrderStatus.PENDING ∧ order.status ≠ OrderStatus.CONFIRMED then
      Except.error { statusCode := 400, code := "cannot_cancel" }
    else
      let os1 := (st.orders.cancel oid reason).1
      let updatedOrder := ((st.orders.cancel oid reason).2).getD (Order.cancelled reason order)
      let os2 := if order.paymentStatus = OrderPaymentStatus.PAID ∧ 0 < order.finalAmount then
          (os1.updatePaymentStatus oid OrderPaymentStatus.REFUNDED).1
        else os1
      Except.ok
        ({ st with orders := os2,
                   meals := st.meals.restoreAvailability order.mealId order.quantity },
         updatedOrder)

/-- OrderService.updateOrderStatus: 404 when the order does not exist,
otherwise delegate to the data-layer updateStatus. -/
def updateOrderStatus (st : SysState) (oid : Nat) (staffId : String) (status : OrderStatus)
    (notes : String) : Except SvcError (SysState × Order) :=
  match st.orders.findById oid with
  | none => Except.error { statusCode := 404, code := "order_not_found" }
  | some order =>
    let os2 := (st.orders.updateStatus oid status staffId notes).1
    let upd := ((st.orders.updateStatus oid status staffId notes).2).getD
      (Order.withStatus status staffId notes order)
    Except.ok ({ st with orders := os2 }, upd)

/-- The allow-list of validation.js validateStatusUpdate. -/
def validStatuses : List OrderStatus :=
  [OrderStatus.CONFIRMED, OrderStatus.PREPARING, OrderStatus.READY, OrderStatus.DELIVERED]

/-- The staff PATCH /api/orders/:id/status pipeline: validateStatusUpdate
(allow-list membership) followed by OrderService.updateOrderStatus. -/
def staffStatusUpdate (st : SysState) (oid : Nat) (staffId : String) (status : OrderStatus)
    (notes : String) : Except SvcError (SysState × Order) :=
  if status ∈ validStatuses then updateOrderStatus st oid staffId status notes
  else Except.error { statusCode := 400, code := "validation_error" }

/-- Outcome of an Express middleware: pass to the handler or short-circuit
with an HTTP status and error code. -/
inductive MwResult
  | next
  | reject (statusCode : Nat) (error : String)
deriving DecidableEq

/-- JavaScript truthiness of an optional string field (undefined and the
empty string are falsy). -/
def strTruthy : Option String → Bool
  | none => false
  | some s => decide (s ≠ "")

/-- JavaScript truthiness of an optional numeric field (undefined and 0 are
falsy). -/
def numTruthy : Option Int → Bool
  | none => false
  | some n => decide (n ≠ 0)

/-- The errors array built by validation.js validateOrderRequest, in source
order: required mealId, required scheduledDate, required valid quantity
(falsy or < 1), date parse failure, quantity > 10. Date.parse success is
passed in as a flag since string-to-date parsing lives in the runtime. -/
def validateOrderRequestErrors (mealId scheduledDate : Option String) (dateParses : Bool)
    (quantity : Option Int) : List String :=
  (if strTruthy mealId = false then ["Meal ID is required"] else []) ++
  (if strTruthy scheduledDate = false then ["Scheduled date is required"] else []) ++
  (if numTruthy quantity = false ∨ quantity.getD 0 < 1 then ["Valid quantity is required"] else []) ++
  (if strTruthy scheduledDate = true ∧ dateParses = false then ["Invalid date format"] else []) ++
  (if numTruthy quantity = true ∧ 10 < quantity.getD 0 then ["Maximum 10 meals per order"] else [])

/-- validation.js validateOrderRequest: 400 validation_error when any error
was collected, otherwise next(). -/
def validateOrderRequest (mealId scheduledDate : Option String) (dateParses : Bool)
    (quantity : Option Int) : MwResult :=
  if validateOrderRequestErrors mealId scheduledDate dateParses quantity = [] then
    MwResult.next
  else
    MwResult.reject 400 "validation_error"

/-- Mock PayDPI payment status (PayDPIClient.js). -/
inductive PayStatus
  | INITIATED
  | PROCESSING
  | COMPLETED
  | CANCELLED
  | EXPIRED
deriving DecidableEq

/-- A payment stored in the PayDPI mock client's map (fields the status
logic reads; completion metadata such as transactionId is randomly
generated in the source and not modelled). -/
structure Payment where
  paymentId : String
  orderId : String
  amount : Int
  status : PayStatus
  initiatedAt : Int
  expiresAt : Int
deriving DecidableEq

/-- The mutation getPaymentStatus applies to a stored payment on each poll:
INITIATED with elapsed > 30000 ms becomes PROCESSING; then PROCESSING with
elapsed > 60000 ms becomes COMPLETED; finally a payment past expiresAt that
is still INITIATED becomes EXPIRED. Times are milliseconds. -/
def pollPayment (p : Payment) (now : Int) : Payment :=
  let p1 := if p.status = PayStatus.INITIATED ∧ 30000 < now - p.initiatedAt then
      { p with status := PayStatus.PROCESSING }
    else p
  let p2 := if p1.status = PayStatus.PROCESSING ∧ 60000 < now - p1.initiatedAt then
      { p1 with status := PayStatus.COMPLETED }
    else p1
  if p2.expiresAt < now ∧ p2.status = PayStatus.INITIATED then
    { p2 with status := PayStatus.EXPIRED }
  else p2

/-- A PayDPI mock error payload (the code field of the thrown object). -/
structure PayError where
  code : String
deriving DecidableEq

/-- The response body of PayDPIClient.cancelPayment. -/
structure CancelResponse where
  paymentId : String
  status : PayStatus
  refundAmount : Int
deriving DecidableEq

/-- PayDPIClient.cancelPayment on a stored payment: INVALID_STATE unless the
status is INITIATED or PROCESSING; otherwise the stored status is
overwritten to CANCELLED first, and only then does the response compute
refundAmount by testing that same (already overwritten) status against
PROCESSING. -/
def cancelPayment (p : Payment) : Except PayError (Payment × CancelResponse) :=
  if p.status ≠ PayStatus.INITIATED ∧ p.status ≠ PayStatus.PROCESSING then
    Except.error { code := "INVALID_STATE" }
  else
    let p2 := { p with status := PayStatus.CANCELLED }
    Except.ok (p2,
      { paymentId := p2.paymentId
        status := PayStatus.CANCELLED
        refundAmount := if p2.status = PayStatus.PROCESSING then p2.amount else 0 })

/-- Mock meal meal_001 from MealService.js. -/
def meal001 : Meal :=
  { id := "meal_001", name := "Rice and Curry", price := 50, subsidyAmount := 30,
    available := true, currentQuantity := 95 }

/-- Mock meal meal_002 from MealService.js. -/
def meal002 : Meal :=
  { id := "meal_002", name := "Chicken Sandwich", price := 80, subsidyAmount := 20,
    available := true, currentQuantity := 48 }

/-- Mock student student123 from StudentService.js. -/
def student123 : Student :=
  { id := "student123", school := "Royal College", subsidyEligible := true,
    dietaryRestrictions := ["vegetarian"] }

/-- Mock student student124 from StudentService.js. -/
def student124 : Student :=
  { id := "student124", school := "Royal College", subsidyEligible := true,
    dietaryRestrictions := [] }

/-- The initial order-service state: empty order array with counter 1000,
the two mock meals and the two mock students. -/
def initialState : SysState :=
  { orders := { orders := [], counter := 1000 }
    meals := { meals := [meal001, meal002] }
    students := [student123, student124] }

/-- Sequence two order-service calls, threading the state and stopping at
the first error (how the HTTP handlers chain requests in a scenario). -/
def andThenOrder (e : Except SvcError (SysState × Order))
    (f : SysState → Except SvcError (SysState × Order)) : Except SvcError (SysState × Order) :=
  match e with
  | Except.error err => Except.error err
  | Except.ok p => f p.1

/-- The non-CANCELLED orders of a student on a given scheduledDate. -/
def activeOrders (s : OrderStore) (sid : String) (d : Int) : List Order :=
  s.orders.filter (fun o =>
    decide (o.studentId = sid ∧ o.scheduledDate = d ∧ o.status ≠ OrderStatus.CANCELLED))

/-- How many non-CANCELLED orders a student has on a date in the state a
request pipeline ended in (none when the pipeline errored). -/
def activeCountOfResult (e : Except SvcError (SysState × Order)) (sid : String) (d : Int) :
    Option Nat :=
  match e with
  | Except.ok p => some (activeOrders p.1.orders sid d).length
  | Except.error _ => none

/-- The meal store of the state a request pipeline ended in (none when the
pipeline errored). -/
def mealsOfResult (e : Except SvcError (SysState × Order)) : Option MealStore :=
  match e with
  | Except.ok p => some p.1.meals
  | Except.error _ => none

/-- Two orders that would together violate the at-most-one-active-order
rule: same student, same scheduledDate, neither CANCELLED. -/
def activeConflict (a b : Order) : Prop :=
  a.studentId = b.studentId ∧ a.scheduledDate = b.scheduledDate ∧
    a.status ≠ OrderStatus.CANCELLED ∧ b.status ≠ OrderStatus.CANCELLED

instance (a b : Order) : Decidable (activeConflict a b) := by
  unfold activeConflict
  infer_instance

/-- The spec invariant on the order array: no two entries are in active
conflict, i.e. at most one non-CANCELLED order per (student, scheduledDate). -/
def dupFree (l : List Order) : Prop :=
  l.Pairwise (fun a b => ¬ activeConflict a b)

instance (l : List Order) : Decidable (dupFree l) := by
  unfold dupFree
  infer_instance

/-- A four-request scenario against the initial state (dates as day
numbers, today = 0): student123 orders meal_001 for day 5, cancels it,
orders meal_001 for day 5 again, and then staff move the first (CANCELLED)
order to CONFIRMED through the status-update endpoint. -/
def reviveTrace : Except SvcError (SysState × Order) :=
  andThenOrder (createOrder initialState 0 ("student123")
      { mealId := "meal_001", scheduledDate := 5, quantity := 1 }) (fun st1 =>
  andThenOrder (cancelOrder st1 1000 ("student123") ("changed_mind")) (fun st2 =>
  andThenOrder (createOrder st2 0 ("student123")
      { mealId := "meal_001", scheduledDate := 5, quantity := 1 }) (fun st3 =>
  staffStatusUpdate st3 1000 ("staff_001") OrderStatus.CONFIRMED ("revive"))))

/-- The order created by the first request of the scenario: id 1000,
Rs. 50 total, Rs. 30 subsidy, Rs. 20 final. -/
def order1000 : Order :=
  { id := 1000, studentId := "student123", mealId := "meal_001", schoolId := "Royal College",
    scheduledDate := 5, quantity := 1, totalAmount := 50, subsidyAmount := 30, finalAmount := 20,
    status := OrderStatus.PENDING, paymentStatus := OrderPaymentStatus.PENDING, paymentId := none,
    statusHistory := [], cancellationReason := none }

/-- meal_001 after one unit was ordered. -/
def meal001after : Meal := { meal001 with currentQuantity := 94 }

/-- The state right after the first create: order1000 stored, counter
bumped, meal_001 availability decremented. -/
def stAfterCreate : SysState :=
  { orders := { orders := [order1000], counter := 1001 }
    meals := { meals := [meal001after, meal002] }
    students := [student123, student124] }

/-- order1000 delivered: a concrete order outside PENDING/CONFIRMED. -/
def deliveredOrder : Order := { order1000 with status := OrderStatus.DELIVERED }

/-- A state holding one DELIVERED order. -/
def deliveredState : SysState :=
  { orders := { orders := [deliveredOrder], counter := 1001 }
    meals := { meals := [meal001after, meal002] }
    students := [student123, student124] }

/-- A concrete PROCESSING payment used to witness C10. -/
def payProc : Payment :=
  { paymentId := "PAY_20250101_5001", orderId := "ORD1000", amount := 20,
    status := PayStatus.PROCESSING, initiatedAt := 0, expiresAt := 3600000 }

/-- A concrete INITIATED payment used to witness C5. -/
def payInit : Payment :=
  { paymentId := "PAY_20250101_5000", orderId := "ORD1000", amount := 20,
    status := PayStatus.INITIATED, initiatedAt := 0, expiresAt := 3600000 }

end NutriConnect

namespace NutriConnect

theorem mem_updateFirst {p : Order → Bool} {f : Order → Order} {l : List Order} {y : Order}
    (h : y ∈ updateFirst p f l) : y ∈ l ∨ ∃ z, z ∈ l ∧ y = f z := by
  induction l with
  | nil => simp [updateFirst] at h
  | cons x xs ih =>
    simp only [updateFirst] at h
    by_cases hp : p x
    · rw [if_pos hp] at h
      rcases List.mem_cons.mp h with h1 | h1
      · exact Or.inr ⟨x, List.mem_cons_self x xs, h1⟩
      · exact Or.inl (List.mem_cons_of_mem x h1)
    · rw [if_neg hp] at h
      rcases List.mem_cons.mp h with h1 | h1
      · exact Or.inl (h1 ▸ List.mem_cons_self x xs)
      · rcases ih h1 with h2 | ⟨z, hz, hy⟩
        · exact Or.inl (List.mem_cons_of_mem x h2)
        · exact Or.inr ⟨z, List.mem_cons_of_mem x hz, hy⟩

theorem pairwise_updateFirst {R : Order → Order → Prop} {p : Order → Bool} {f : Order → Order}
    (hf : ∀ a b, R a b → R (f a) b) (hg : ∀ a b, R a b → R a (f b)) :
    ∀ {l : List Order}, l.Pairwise R → (updateFirst p f l).Pairwise R := by
  intro l
  induction l with
  | nil =>
    intro h
    simp [updateFirst]
  | cons x xs ih =>
    intro h
    rcases List.pairwise_cons.mp h with ⟨hx, hxs⟩
    simp only [updateFirst]
    by_cases hp : p x
    · rw [if_pos hp]
      exact List.pairwise_cons.mpr ⟨fun y hy => hf x y (hx y hy), hxs⟩
    · rw [if_neg hp]
      refine List.pairwise_cons.mpr ⟨?_, ih hxs⟩
      intro y hy
      rcases mem_updateFirst hy with h1 | ⟨z, hz, hyz⟩
      · exact hx y h1
      · exact hyz ▸ hg x z (hx z hz)

theorem find?_updateFirst_id {oid : Nat} {f : Order → Order} (hf : ∀ o, (f o).id = o.id)
    {l : List Order} {o : Order}
    (h : l.find? (fun x => decide (x.id = oid)) = some o) :
    (updateFirst (fun x => decide (x.id = oid)) f l).find? (fun x => decide (x.id = oid))
      = some (f o) := by
  induction l with
  | nil => simp at h
  | cons x xs ih =>
    by_cases hx : x.id = oid
    · have hxd : decide (x.id = oid) = true := by simpa using hx
      rw [@List.find?_cons_of_pos _ (fun y => decide (y.id = oid)) x xs hxd] at h
      have hxo : x = o := by injection h
      subst hxo
      simp only [updateFirst, if_pos hxd]
      have hfd : decide ((f x).id = oid) = true := by
        rw [hf x]
        exact hxd
      exact @List.find?_cons_of_pos _ (fun y => decide (y.id = oid)) (f x) xs hfd
    · have hxd : ¬ decide (x.id = oid) = true := by simpa using hx
      rw [@List.find?_cons_of_neg _ (fun y => decide (y.id = oid)) x xs hxd] at h
      simp only [updateFirst, if_neg hxd]
      rw [@List.find?_cons_of_neg _ (fun y => decide (y.id = oid)) x (updateFirst (fun y => decide (y.id = oid)) f xs) hxd]
      exact ih h


theorem getMealById_updateAvailability (ms : MealStore) (mid : String) (q : Int) :
    (ms.updateAvailability mid q).getMealById mid =
      (ms.getMealById mid).map (fun m => { m with currentQuantity := m.currentQuantity - q }) := by
  cases ms with
  | mk l =>
    simp only [MealStore.updateAvailability, MealStore.getMealById]
    induction l with
    | nil => rfl
    | cons m rest ih =>
      by_cases hm : m.id = mid
      · simp [List.find?_cons, hm]
      · simp only [List.map_cons]
        rw [if_neg hm]
        simp only [List.find?_cons]
        simp [hm, ih]

theorem restoreAvailability_updateAvailability (ms : MealStore) (mid : String) (q : Int) :
    (ms.updateAvailability mid q).restoreAvailability mid q = ms := by
  cases ms with
  | mk l =>
    simp only [MealStore.updateAvailability, MealStore.restoreAvailability, List.map_map,
      MealStore.mk.injEq]
    induction l with
    | nil => rfl
    | cons m rest ih =>
      simp only [List.map_cons, Function.comp_apply]
      rw [ih]
      by_cases hm : m.id = mid
      · rw [if_pos hm]
        simp only [Int.sub_add_cancel]
        rw [if_pos hm]
      · rw [if_neg hm, if_neg hm]

theorem createOrder_ok_inv {st : SysState} {today : Int} {sid : String} {req : CreateRequest}
    {st2 : SysState} {o : Order}
    (hc : createOrder st today sid req = Except.ok (st2, o)) :
    ∃ meal student,
      ¬ req.scheduledDate < today ∧
      st.meals.getMealById req.mealId = some meal ∧
      meal.available = true ∧
      getStudentById st.students sid = some student ∧
      st.orders.findExistingOrder sid req.scheduledDate = none ∧
      o = (computeOrderData sid req meal student).toOrder st.orders.counter ∧
      st2 = { st with
        orders := { orders := st.orders.orders ++ [o], counter := st.orders.counter + 1 },
        meals := st.meals.updateAvailability req.mealId req.quantity } := by
  unfold createOrder at hc
  split at hc
  · exact absurd hc (by simp)
  rename_i hdate
  split at hc
  · exact absurd hc (by simp)
  rename_i meal hmeal
  split at hc
  · exact absurd hc (by simp)
  rename_i havail
  split at hc
  · exact absurd hc (by simp)
  rename_i student hstudent
  split at hc
  · exact absurd hc (by simp)
  rename_i hdup
  simp only [OrderStore.create, Except.ok.injEq, Prod.mk.injEq] at hc
  obtain ⟨hst, ho⟩ := hc
  refine ⟨meal, student, hdate, hmeal, ?_, hstudent, hdup, ho.symm, ?_⟩
  · simpa using havail
  · rw [ho] at hst
    exact hst.symm


/-- C9: every order built by Order.create starts with status PENDING and
paymentId null, and its paymentStatus is PENDING when finalAmount > 0 and
PAID otherwise (fully subsidized orders are marked paid immediately). -/
theorem order_create_initial_fields (s : OrderStore) (d : OrderData) :
    (s.create d).2.status = OrderStatus.PENDING ∧
    (s.create d).2.paymentId = none ∧
    (s.create d).2.paymentStatus =
      (if 0 < d.finalAmount then OrderPaymentStatus.PENDING else OrderPaymentStatus.PAID) :=
  ⟨rfl, rfl, rfl⟩

/-- C1: an order successfully created by OrderService.createOrder has
totalAmount = price * quantity, subsidyAmount = subsidy * quantity for a
subsidy-eligible student and 0 otherwise, and
finalAmount = max 0 (totalAmount - subsidyAmount). -/
theorem createOrder_pricing (st : SysState) (today : Int) (sid : String) (req : CreateRequest)
    (st2 : SysState) (o : Order) (meal : Meal) (student : Student)
    (hm : st.meals.getMealById req.mealId = some meal)
    (hs : getStudentById st.students sid = some student)
    (hc : createOrder st today sid req = Except.ok (st2, o)) :
    o.totalAmount = meal.price * req.quantity ∧
    o.subsidyAmount = (if student.subsidyEligible then meal.subsidyAmount * req.quantity else 0) ∧
    o.finalAmount = max 0 (o.totalAmount - o.subsidyAmount) := by
  obtain ⟨meal2, student2, _, hm2, _, hs2, _, ho, _⟩ := createOrder_ok_inv hc
  rw [hm] at hm2
  rw [hs] at hs2
  cases hm2
  cases hs2
  subst ho
  exact ⟨rfl, rfl, rfl⟩

/-- C1 witness: creating the first order for student123 and meal_001 with
quantity 1 prices it at 50, subsidizes 30 and leaves 20 to pay. -/
theorem createOrder_pricing_witness :
    order1000.totalAmount = meal001.price * 1 ∧
    order1000.subsidyAmount = (if student123.subsidyEligible then meal001.subsidyAmount * 1 else 0) ∧
    order1000.finalAmount = max 0 (order1000.totalAmount - order1000.subsidyAmount) :=
  createOrder_pricing initialState 0 ("student123")
    { mealId := "meal_001", scheduledDate := 5, quantity := 1 }
    stAfterCreate order1000 meal001 student123 rfl rfl (by decide)

/-- C7: createOrder rejects a scheduledDate strictly before today with a
400 invalid_date error (thrown before any state is touched; the embedding
returns no state on error), and a scheduledDate of today or later never
produces an invalid_date error. -/
theorem createOrder_date_guard (st : SysState) (today : Int) (sid : String) (req : CreateRequest) :
    (req.scheduledDate < today →
      createOrder st today sid req = Except.error { statusCode := 400, code := "invalid_date" }) ∧
    (today ≤ req.scheduledDate →
      ∀ e, createOrder st today sid req = Except.error e → e.code ≠ "invalid_date") := by
  constructor
  · intro h
    unfold createOrder
    rw [if_pos h]
  · intro h e hc hcode
    unfold createOrder at hc
    rw [if_neg (not_lt.mpr h)] at hc
    split at hc
    · cases hc
      simp at hcode
    split at hc
    · cases hc
      simp at hcode
    split at hc
    · cases hc
      simp at hcode
    split at hc
    · cases hc
      simp at hcode
    · exact absurd hc (by simp)

/-- C7 witness: ordering for day 5 when today is day 7 fails with
invalid_date, and with today at day 0 no invalid_date error arises. -/
theorem createOrder_date_guard_witness :
    createOrder initialState 7 ("student123")
      { mealId := "meal_001", scheduledDate := 5, quantity := 1 }
      = Except.error { statusCode := 400, code := "invalid_date" } :=
  (createOrder_date_guard initialState 7 ("student123")
    { mealId := "meal_001", scheduledDate := 5, quantity := 1 }).1 (by decide)

/-- C10: cancelling a payment in a cancellable state (INITIATED or
PROCESSING) always reports refundAmount 0, because the stored status is
overwritten to CANCELLED before the refundAmount conditional reads it. -/
theorem cancelPayment_refund_zero (p : Payment)
    (h : p.status = PayStatus.INITIATED ∨ p.status = PayStatus.PROCESSING) :
    cancelPayment p = Except.ok ({ p with status := PayStatus.CANCELLED },
      { paymentId := p.paymentId, status := PayStatus.CANCELLED, refundAmount := 0 }) := by
  unfold cancelPayment
  rw [if_neg]
  · rfl
  · rcases h with h | h <;> simp [h]

/-- C10 witness: a PROCESSING payment of amount 20 cancels with
refundAmount 0 even though the source meant to refund PROCESSING payments. -/
theorem cancelPayment_refund_zero_witness :
    cancelPayment payProc = Except.ok ({ payProc with status := PayStatus.CANCELLED },
      { paymentId := payProc.paymentId, status := PayStatus.CANCELLED, refundAmount := 0 }) :=
  cancelPayment_refund_zero payProc (Or.inr rfl)


/-- C5: each getPaymentStatus poll advances a stored payment purely by the
wall-clock time elapsed since initiatedAt: INITIATED becomes PROCESSING
once elapsed exceeds 30s (and COMPLETED once it exceeds 60s, passing
through PROCESSING within the same poll), PROCESSING becomes COMPLETED once
elapsed exceeds 60s, a payment still INITIATED after the progression
checks becomes EXPIRED once now passes expiresAt, and no poll ever moves
the status backward. -/
theorem pollPayment_progression (p : Payment) (now : Int) :
    (p.status = PayStatus.INITIATED → 30000 < now - p.initiatedAt →
      now - p.initiatedAt ≤ 60000 → (pollPayment p now).status = PayStatus.PROCESSING) ∧
    (p.status = PayStatus.INITIATED → 60000 < now - p.initiatedAt →
      (pollPayment p now).status = PayStatus.COMPLETED) ∧
    (p.status = PayStatus.PROCESSING → 60000 < now - p.initiatedAt →
      (pollPayment p now).status = PayStatus.COMPLETED) ∧
    (p.status = PayStatus.INITIATED → now - p.initiatedAt ≤ 30000 → p.expiresAt < now →
      (pollPayment p now).status = PayStatus.EXPIRED) ∧
    ((pollPayment p now).status = p.status ∨
      (p.status = PayStatus.INITIATED ∧
        (pollPayment p now).status ∈
          [PayStatus.PROCESSING, PayStatus.COMPLETED, PayStatus.EXPIRED]) ∨
      (p.status = PayStatus.PROCESSING ∧ (pollPayment p now).status = PayStatus.COMPLETED)) := by
  refine ⟨?_, ?_, ?_, ?_, ?_⟩
  · intro hs h30 h60
    simp only [pollPayment]
    split_ifs with h1 h2 h3 <;> simp_all
    omega
  · intro hs h60
    simp only [pollPayment]
    split_ifs with h1 h2 h3 <;> simp_all <;> omega
  · intro hs h60
    simp only [pollPayment]
    split_ifs with h1 h2 h3 <;> simp_all
  · intro hs h30 hexp
    simp only [pollPayment]
    split_ifs with h1 h2 h3 <;> simp_all <;> omega
  · simp only [pollPayment]
    split_ifs with h1 h2 h3 <;> simp_all


/-- C5 witness: polling an INITIATED payment 31 seconds after initiation
moves it to PROCESSING. -/
theorem pollPayment_progression_witness :
    (pollPayment payInit 31000).status = PayStatus.PROCESSING :=
  (pollPayment_progression payInit 31000).1 rfl (by decide) (by decide)

/-- C6: the order-request validation middleware rejects any body whose
quantity is below 1, above 10 or missing with 400 validation_error, and
lets a body with the other fields well-formed and quantity between 1 and
10 through to the handler. -/
theorem validateOrderRequest_quantity (mealId scheduledDate : Option String)
    (dateParses : Bool) (q : Int) :
    ((q < 1 ∨ 10 < q) →
      validateOrderRequest mealId scheduledDate dateParses (some q)
        = MwResult.reject 400 "validation_error") ∧
    (validateOrderRequest mealId scheduledDate dateParses none
      = MwResult.reject 400 "validation_error") ∧
    (∀ mid sd : String, mid ≠ "" → sd ≠ "" → 1 ≤ q → q ≤ 10 →
      validateOrderRequest (some mid) (some sd) true (some q) = MwResult.next) := by
  refine ⟨?_, ?_, ?_⟩
  · intro hq
    have herr : validateOrderRequestErrors mealId scheduledDate dateParses (some q) ≠ [] := by
      intro hnil
      simp only [validateOrderRequestErrors, numTruthy, Option.getD_some] at hnil
      rcases hq with hq | hq <;> split_ifs at hnil <;> simp_all
    unfold validateOrderRequest
    rw [if_neg herr]
  · have herr : validateOrderRequestErrors mealId scheduledDate dateParses none ≠ [] := by
      intro hnil
      simp only [validateOrderRequestErrors, numTruthy] at hnil
      split_ifs at hnil <;> simp_all
    unfold validateOrderRequest
    rw [if_neg herr]
  · intro mid sd hmid hsd h1 h10
    have herr : validateOrderRequestErrors (some mid) (some sd) true (some q) = [] := by
      simp only [validateOrderRequestErrors, numTruthy, strTruthy, Option.getD_some]
      split_ifs <;> simp_all <;> omega
    unfold validateOrderRequest
    rw [if_pos herr]

/-- C6 witness: quantity 11 is rejected with validation_error and quantity
10 with otherwise valid fields passes. -/
theorem validateOrderRequest_quantity_witness :
    validateOrderRequest (some ("meal_001")) (some ("2025-06-01")) true (some 11)
      = MwResult.reject 400 "validation_error" :=
  (validateOrderRequest_quantity (some ("meal_001")) (some ("2025-06-01")) true 11).1
    (Or.inr (by decide))


/-- C3: cancelOrder rejects any owned order whose status is outside
PENDING/CONFIRMED with a 400 cannot_cancel error (the embedding returns no
state on error, so the stored state is untouched), and conversely a
successful cancellation only ever happens from PENDING or CONFIRMED. -/
theorem cancelOrder_status_guard (st : SysState) (oid : Nat) (sid reason : String) :
    (∀ order, st.orders.findById oid = some order → order.studentId = sid →
      order.status ≠ OrderStatus.PENDING → order.status ≠ OrderStatus.CONFIRMED →
      cancelOrder st oid sid reason
        = Except.error { statusCode := 400, code := "cannot_cancel" }) ∧
    (∀ st2 r, cancelOrder st oid sid reason = Except.ok (st2, r) →
      ∃ order, st.orders.findById oid = some order ∧
        (order.status = OrderStatus.PENDING ∨ order.status = OrderStatus.CONFIRMED)) := by
  constructor
  · intro order hfind hsid h1 h2
    unfold cancelOrder
    simp only [hfind]
    rw [if_neg (by simp [hsid]), if_pos ⟨h1, h2⟩]
  · intro st2 r hok
    unfold cancelOrder at hok
    split at hok
    · exact absurd hok (by simp)
    rename_i order hfind
    split at hok
    · exact absurd hok (by simp)
    split at hok
    · exact absurd hok (by simp)
    rename_i hcan
    rw [not_and_or, not_not, not_not] at hcan
    exact ⟨order, hfind, hcan⟩

/-- C3 witness: cancelling a DELIVERED order fails with cannot_cancel. -/
theorem cancelOrder_status_guard_witness :
    cancelOrder deliveredState 1000 ("student123") ("too_late")
      = Except.error { statusCode := 400, code := "cannot_cancel" } :=
  (cancelOrder_status_guard deliveredState 1000 ("student123") ("too_late")).1
    deliveredOrder rfl rfl (by decide) (by decide)

/-- C4: for an existing order and a requested status from the allow-list,
the staff status-update pipeline succeeds, overwrites the order status
with the requested one regardless of the current status, appends exactly
one statusHistory entry, and stores the updated order. -/
theorem staffStatusUpdate_overwrite (st : SysState) (oid : Nat) (staffId notes : String)
    (status : OrderStatus) (hstatus : status ∈ validStatuses)
    (order : Order) (hfind : st.orders.findById oid = some order) :
    staffStatusUpdate st oid staffId status notes =
      Except.ok ({ st with orders := (st.orders.updateStatus oid status staffId notes).1 },
        Order.withStatus status staffId notes order) ∧
    (Order.withStatus status staffId notes order).status = status ∧
    (Order.withStatus status staffId notes order).statusHistory.length
      = order.statusHistory.length + 1 ∧
    (st.orders.updateStatus oid status staffId notes).1.findById oid
      = some (Order.withStatus status staffId notes order) := by
  have hfind2 : st.orders.orders.find? (fun x => decide (x.id = oid)) = some order := hfind
  refine ⟨?_, rfl, ?_, ?_⟩
  · unfold staffStatusUpdate
    rw [if_pos hstatus]
    unfold updateOrderStatus OrderStore.updateStatus OrderStore.findById
    simp only [hfind2, Option.getD_some]
  · simp [Order.withStatus]
  · unfold OrderStore.updateStatus
    simp only [hfind2]
    unfold OrderStore.findById
    exact @find?_updateFirst_id oid (Order.withStatus status staffId notes) (fun o => rfl)
      st.orders.orders order hfind2

/-- C4 witness: moving the DELIVERED order 1000 back to CONFIRMED through
the staff pipeline succeeds and appends one history entry. -/
theorem staffStatusUpdate_overwrite_witness :
    staffStatusUpdate deliveredState 1000 ("staff_001") OrderStatus.CONFIRMED ("back")
      = Except.ok ({ deliveredState with
            orders := (deliveredState.orders.updateStatus 1000 OrderStatus.CONFIRMED
              ("staff_001") ("back")).1 },
          Order.withStatus OrderStatus.CONFIRMED ("staff_001") ("back") deliveredOrder) :=
  (staffStatusUpdate_overwrite deliveredState 1000 ("staff_001") ("back")
    OrderStatus.CONFIRMED (by decide) deliveredOrder rfl).1


theorem dupFree_cancel_store (s : OrderStore) (oid : Nat) (reason : String)
    (h : dupFree s.orders) : dupFree ((s.cancel oid reason).1).orders := by
  unfold OrderStore.cancel
  split
  · exact h
  · exact pairwise_updateFirst (fun a b _ hconf => hconf.2.2.1 rfl)
      (fun a b _ hconf => hconf.2.2.2 rfl) h

theorem dupFree_updatePaymentStatus_store (s : OrderStore) (oid : Nat)
    (ps : OrderPaymentStatus) (h : dupFree s.orders) :
    dupFree ((s.updatePaymentStatus oid ps).1).orders := by
  unfold OrderStore.updatePaymentStatus
  split
  · exact h
  · exact pairwise_updateFirst (fun a b hab hconf => hab hconf) (fun a b hab hconf => hab hconf) h

/-- C2 (amended): createOrder rejects a duplicate with 409 duplicate_order
once its date/meal/student checks pass, and createOrder and cancelOrder
both preserve the at-most-one-non-CANCELLED-order-per-(student, date)
invariant; the staff status update, however, can revive a CANCELLED order
(see the counterexample), so the store as a whole does not keep it. -/
theorem createOrder_duplicate_guard (st : SysState) (today : Int) (sid : String)
    (req : CreateRequest) :
    (∀ meal student ex,
      ¬ req.scheduledDate < today →
      st.meals.getMealById req.mealId = some meal → meal.available = true →
      getStudentById st.students sid = some student →
      st.orders.findExistingOrder sid req.scheduledDate = some ex →
      createOrder st today sid req
        = Except.error { statusCode := 409, code := "duplicate_order" }) ∧
    (∀ st2 o, dupFree st.orders.orders →
      createOrder st today sid req = Except.ok (st2, o) → dupFree st2.orders.orders) ∧
    (∀ oid reason st2 r, dupFree st.orders.orders →
      cancelOrder st oid sid reason = Except.ok (st2, r) → dupFree st2.orders.orders) := by
  refine ⟨?_, ?_, ?_⟩
  · intro meal student ex hdate hmeal havail hstudent hex
    unfold createOrder
    rw [if_neg hdate, hmeal]
    simp only [havail]
    rw [hstudent, hex]
    simp
  · intro st2 o hfree hc
    obtain ⟨meal, student, _, _, _, _, hdupnone, ho, hst2⟩ := createOrder_ok_inv hc
    subst hst2
    unfold dupFree at hfree ⊢
    rw [List.pairwise_append]
    refine ⟨hfree, List.pairwise_singleton _ _, ?_⟩
    intro a ha b hb
    rw [List.mem_singleton] at hb
    subst hb
    intro hconf
    unfold OrderStore.findExistingOrder at hdupnone
    have hnot := List.find?_eq_none.mp hdupnone a ha
    apply hnot
    subst ho
    refine decide_eq_true ⟨hconf.1, hconf.2.1, hconf.2.2.1⟩
  · intro oid reason st2 r hfree hok
    unfold cancelOrder at hok
    split at hok
    · exact absurd hok (by simp)
    rename_i order hfind
    split at hok
    · exact absurd hok (by simp)
    split at hok
    · exact absurd hok (by simp)
    simp only [Except.ok.injEq, Prod.mk.injEq] at hok
    obtain ⟨hst2, _⟩ := hok
    rw [← hst2]
    show dupFree (if _ then _ else _ : OrderStore).orders
    split
    · exact dupFree_updatePaymentStatus_store _ _ _ (dupFree_cancel_store _ _ _ hfree)
    · exact dupFree_cancel_store _ _ _ hfree

/-- C2 amended witness: with order 1000 already active for student123 on
day 5, a second order for the same student and date is rejected with 409
duplicate_order. -/
theorem createOrder_duplicate_guard_witness :
    createOrder stAfterCreate 0 ("student123")
      { mealId := "meal_001", scheduledDate := 5, quantity := 1 }
      = Except.error { statusCode := 409, code := "duplicate_order" } :=
  (createOrder_duplicate_guard stAfterCreate 0 ("student123")
    { mealId := "meal_001", scheduledDate := 5, quantity := 1 }).1
    meal001after student123 order1000 (by decide) rfl rfl rfl rfl

/-- C2 counterexample: the claimed store-wide invariant fails. Starting
from the initial state, create an order for day 5, cancel it, create a
second order for the same day (accepted, the first is CANCELLED), then
have staff move the first order to CONFIRMED through the status-update
endpoint: every step succeeds and the final store holds two non-CANCELLED
orders for (student123, day 5). -/
theorem reviveTrace_breaks_invariant :
    activeCountOfResult reviveTrace ("student123") 5 = some 2 := by decide


/-- C8: creating an order decrements the meal currentQuantity by exactly
the ordered quantity (plain Int subtraction, no lower bound), and
cancelling that same order immediately afterwards restores the meal store
to exactly what it was before the order: a round-trip identity. -/
theorem create_cancel_meal_roundtrip (st : SysState) (today : Int) (sid reason : String)
    (req : CreateRequest) (st2 : SysState) (o : Order) (meal : Meal)
    (hfresh : st.orders.findById st.orders.counter = none)
    (hm : st.meals.getMealById req.mealId = some meal)
    (hc : createOrder st today sid req = Except.ok (st2, o)) :
    st2.meals.getMealById req.mealId
      = some { meal with currentQuantity := meal.currentQuantity - req.quantity } ∧
    mealsOfResult (cancelOrder st2 o.id sid reason) = some st.meals := by
  obtain ⟨meal2, student, _, hm2, _, _, _, ho, hst2⟩ := createOrder_ok_inv hc
  rw [hm] at hm2
  cases hm2
  subst hst2
  constructor
  · show (st.meals.updateAvailability req.mealId req.quantity).getMealById req.mealId = _
    rw [getMealById_updateAvailability, hm]
    rfl
  · have hsid : o.studentId = sid := by rw [ho]; rfl
    have hstat : o.status = OrderStatus.PENDING := by rw [ho]; rfl
    have hmealid : o.mealId = req.mealId := by rw [ho]; rfl
    have hqty : o.quantity = req.quantity := by rw [ho]; rfl
    have hid : o.id = st.orders.counter := by rw [ho]; rfl
    have hfresh2 : st.orders.orders.find? (fun x => decide (x.id = o.id)) = none := by
      have h2 := hfresh
      unfold OrderStore.findById at h2
      rw [← hid] at h2
      exact h2
    have hfind : ({ orders := st.orders.orders ++ [o], counter := st.orders.counter + 1 }
        : OrderStore).findById o.id = some o := by
      unfold OrderStore.findById
      rw [List.find?_append, hfresh2]
      simp
    simp only [cancelOrder, hfind]
    rw [if_neg (by simp [hsid])]
    rw [if_neg (by simp [hstat])]
    simp only [mealsOfResult, hmealid, hqty]
    rw [restoreAvailability_updateAvailability]

/-- C8 witness: ordering one meal_001 takes its availability from 95 to 94
and cancelling the order puts the meal store back to the initial one. -/
theorem create_cancel_meal_roundtrip_witness :
    stAfterCreate.meals.getMealById ("meal_001")
      = some { meal001 with currentQuantity := meal001.currentQuantity - 1 } ∧
    mealsOfResult (cancelOrder stAfterCreate 1000 ("student123") ("witness"))
      = some initialState.meals :=
  create_cancel_meal_roundtrip initialState 0 ("student123") ("witness")
    { mealId := "meal_001", scheduledDate := 5, quantity := 1 } stAfterCreate order1000 meal001
    rfl rfl (by decide)

end NutriConnect